import Mathlib

/-!
Verification development for the session orchestration core of the
codeinterpreter repository (`gpt_code_interpreter/session.py`).

Text is modelled as `List Char`, byte payloads as `List Nat`.  External
collaborators (base64 decoding, uuid generation, the modification-detection
chain, the sandbox download operation, the link-rewriting chain) enter the
model as function parameters.  Fallible code returns `Except`.
-/

namespace CodeInterpreter

/-- The apostrophe character (code point 39). -/
def quoteC : Char := Char.ofNat 39

/-- `File` from the repository schema: a named byte payload. -/
structure File where
  name : List Char
  content : List Nat
deriving DecidableEq

/-- The `type` discriminant of an `Output` event (session.py line 44). -/
inductive OutputType where
  | code
  | str
  | image
  | file
  | error
deriving DecidableEq

/-- The `content` field of an `Output` event: a string or a `File`. -/
inductive OutContent where
  | text (t : List Char)
  | file (f : File)
deriving DecidableEq

/-- `Output` dataclass (session.py lines 41-44). -/
structure Output where
  content : OutContent
  type : OutputType
deriving DecidableEq

/-- `CodeBoxOutput`: the sandbox execution result, a type tag
(for example "image/png", "error", "text") plus a string payload. -/
structure CodeBoxOutput where
  type : List Char
  content : List Char
deriving DecidableEq

/-- Python substring test `pat in s`. -/
def containsSub (pat : List Char) : List Char → Bool
  | [] => pat.isEmpty
  | c :: cs => pat.isPrefixOf (c :: cs) || containsSub pat cs

/-- The maximal newline-free initial segment of `s`: the span a regex `.`
can range over, since `.` does not match a newline. -/
def lineSeg (s : List Char) : List Char := s.takeWhile (fun c => c != '\n')

/-- Index of the last character of `s` satisfying `p`, if any. -/
def lastIdx (p : Char → Bool) : List Char → Option Nat
  | [] => none
  | c :: cs =>
    match lastIdx p cs with
    | some k => some (k + 1)
    | none => if p c then some 0 else none

/-- The literal part of the regex
`ModuleNotFoundError: No module named '(.*)'` (session.py line 198),
up to and including the opening apostrophe. -/
def literalM : List Char :=
  "ModuleNotFoundError: No module named ".toList ++ [quoteC]

/-- Greedy capture of `(.*)'` starting right after `literalM`: the group
runs to just before the last apostrophe on the current line; `none` when no
apostrophe remains on the line (the regex fails at this position). -/
def captureFrom (s : List Char) : Option (List Char) :=
  match lastIdx (fun c => c == quoteC) (lineSeg s) with
  | some k => some ((lineSeg s).take k)
  | none => none

/-- `re.search` for the pattern of session.py line 198: leftmost position
where the literal matches and a closing apostrophe exists on the same line;
returns the greedy capture group. -/
def searchModule : List Char → Option (List Char)
  | [] => none
  | c :: cs =>
    if literalM.isPrefixOf (c :: cs) then
      match captureFrom ((c :: cs).drop literalM.length) with
      | some cap => some cap
      | none => searchModule cs
    else searchModule cs

/-- External collaborators and session state consumed by `_arun_handler`. -/
structure HandlerEnv where
  b64decode : List Char → List Nat
  uuidStr : List Char
  getFileModifications : List Char → List (List Char)
  download : List Char → List Nat
  inputFiles : List File
  outputFiles : List File

/-- Exceptions the tool handler itself can raise.  Constructing
`Output(conatent=..., type="error")` (session.py line 206) passes a
misspelled keyword to the dataclass and raises `TypeError`. -/
inductive HandlerErr where
  | outputKeywordTypeError
deriving DecidableEq

/-- Result of one `_arun_handler` call: the text returned to the reasoning
agent, the `Output` events emitted, the new `output_files` list and the
package names passed to `codebox.ainstall`. -/
structure HandlerOut where
  ret : List Char
  events : List Output
  outputFiles : List File
  installs : List (List Char)
deriving DecidableEq

/-- `image-<uuid>.png` filename generation (session.py line 184). -/
def imageFilename (uuid : List Char) : List Char :=
  "image-".toList ++ uuid ++ ".png".toList

/-- The remediation text of session.py line 201. -/
def remediationSuffix : List Char :=
  " was missing but got installed now. Please try again.".toList

/-- The download loop of session.py lines 212-224: for each candidate
filename, skip it when it names an input file, download it, skip it when
the content is empty, otherwise wrap it as a `File`, in candidate order. -/
def downloadLoop (env : HandlerEnv) : List (List Char) → List File
  | [] => []
  | nm :: rest =>
    if nm ∈ env.inputFiles.map File.name then downloadLoop env rest
    else
      if env.download nm = [] then downloadLoop env rest
      else ⟨nm, env.download nm⟩ :: downloadLoop env rest

/-- `_arun_handler` (session.py lines 172-229).  Emits the `code` event,
then branches on the sandbox result type: image results synthesize a file,
error results go through the missing-module recovery (falling through to
the misspelled-keyword `TypeError` of line 206 when the regex fails),
other results run modification detection and the download loop. -/
def arun_handler (env : HandlerEnv) (code : List Char) (out : CodeBoxOutput) :
    Except HandlerErr HandlerOut :=
  if out.type = "image/png".toList then
    .ok ⟨"Image ".toList ++ imageFilename env.uuidStr ++ " got send to the user.".toList,
      [⟨.text code, .code⟩,
        ⟨.file ⟨imageFilename env.uuidStr, env.b64decode out.content⟩, .image⟩],
      env.outputFiles ++ [⟨imageFilename env.uuidStr, env.b64decode out.content⟩], []⟩
  else if out.type = "error".toList then
    if containsSub "ModuleNotFoundError".toList out.content then
      match searchModule out.content with
      | some pkg =>
        .ok ⟨pkg ++ remediationSuffix, [⟨.text code, .code⟩], env.outputFiles, [pkg]⟩
      | none => .error .outputKeywordTypeError
    else .error .outputKeywordTypeError
  else
    match env.getFileModifications code with
    | [] =>
      .ok ⟨out.content, [⟨.text code, .code⟩, ⟨.text out.content, .str⟩],
        env.outputFiles, []⟩
    | nm :: rest =>
      .ok ⟨out.content,
        ⟨.text code, .code⟩ ::
          (downloadLoop env (nm :: rest)).map (fun f => ⟨.file f, .file⟩),
        env.outputFiles ++ downloadLoop env (nm :: rest), []⟩

/-- `_run_handler` (session.py lines 169-170) raises
`NotImplementedError("Use arun_handler for now.")` unconditionally. -/
inductive PyRaise where
  | notImplementedError (msg : List Char)
deriving DecidableEq

/-- The synchronous entry point of the `python` tool. -/
def run_handler (_code : List Char) : Except PyRaise (List Char) :=
  .error (.notImplementedError "Use arun_handler for now.".toList)

/-- One step proposed by the reasoning agent: a tool call or a final
answer. -/
inductive AgentStep where
  | toolCall (code : List Char)
  | finish (answer : List Char)

/-- The iteration bound passed to the agent executor
(session.py line 156: `max_iterations=9`). -/
def maxIterations : Nat := 9

/-- Modelled from the spec: the reasoning-agent loop of the agent executor
(an external collaborator configured at session.py lines 152-162) runs
while the iteration count is below the bound; each iteration asks the
agent for a step, invokes the tool on a tool call, and stops on a final
answer.  `rem` is the number of iterations still allowed, `i` the index of
the current iteration; the value counts tool invocations performed. -/
def toolInvocationsFrom (agent : Nat → AgentStep) (i : Nat) : Nat → Nat
  | 0 => 0
  | rem + 1 =>
    match agent i with
    | .toolCall _ => toolInvocationsFrom agent (i + 1) rem + 1
    | .finish _ => 0

/-- Tool invocations performed by one executor run of the session, with
the session's configured bound. -/
def toolInvocations (agent : Nat → AgentStep) : Nat :=
  toolInvocationsFrom agent 0 maxIterations

/-- A concrete environment used when evaluating the handler on concrete
inputs: no input or output files, trivial external collaborators. -/
def sampleEnv : HandlerEnv :=
  ⟨fun _ => [], "u0".toList, fun _ => [], fun _ => [], [], []⟩

/-- A concrete error text containing
`ModuleNotFoundError: No module named 'foo'` followed by further
apostrophes on the same line: ` in 'bar'`. -/
def cexModText : List Char :=
  "ModuleNotFoundError: No module named ".toList ++ [quoteC] ++ "foo".toList
    ++ [quoteC] ++ " in ".toList ++ [quoteC] ++ "bar".toList ++ [quoteC]

/-- The greedy capture the code extracts from `cexModText`: everything up
to the last apostrophe of the line, not just `foo`. -/
def cexCapture : List Char :=
  "foo".toList ++ [quoteC] ++ " in ".toList ++ [quoteC] ++ "bar".toList

/-- Whether the regex core `.*\]\(.*\)` can match on the line `seg` with
its first `.*` ending at index `a`: a `](` pair at `a` with a `)` later on
the line. -/
def validA (seg : List Char) (a : Nat) : Bool :=
  seg.getD a ' ' == ']' && seg.getD (a + 1) ' ' == '(' &&
    (seg.drop (a + 2)).contains ')'

/-- Greedy choice for the first `.*` of the inline-image pattern: the
largest index at which the remainder of the pattern still matches. -/
def aStar (seg : List Char) : Option Nat :=
  ((List.range seg.length).filter (fun a => validA seg a)).getLast?

/-- Length of the match of `\n\n!\[.*\]\(.*\)` (session.py line 250) at
the head of `s` under Python's greedy semantics, or `none` when there is
no match here.  `.` does not cross a newline; the first `.*` backtracks
from the right to the last `](` pair that still leaves a `)` on the line,
and the second `.*` then runs to the last `)` of the line. -/
def imgMatchLen (s : List Char) : Option Nat :=
  match s with
  | '\n' :: '\n' :: '!' :: '[' :: rest =>
    match aStar (lineSeg rest) with
    | some a =>
      match lastIdx (fun c => c == ')') ((lineSeg rest).drop (a + 2)) with
      | some k => some (4 + (a + 2 + k) + 1)
      | none => none
    | none => none
  | _ => none

/-- The scan of `re.sub(pattern, "", s)`: at each position try the
pattern; on a match drop it and resume right after it, otherwise keep one
character.  Fuel starting at the length of `s` suffices, since every step
consumes at least one character (a match is at least five characters). -/
def reSubImgAux : Nat → List Char → List Char
  | 0, s => s
  | fuel + 1, s =>
    match s with
    | [] => []
    | c :: cs =>
      match imgMatchLen (c :: cs) with
      | some n => reSubImgAux fuel ((c :: cs).drop n)
      | none => c :: reSubImgAux fuel cs

/-- `re.sub` with empty replacement for the inline-image pattern of
session.py line 250. -/
def reSubImg (s : List Char) : List Char := reSubImgAux s.length s

/-- The image-reference stripping loop of session.py lines 247-250: for
each output file whose name occurs in the evolving response text, apply
the global substitution. -/
def stripImages (files : List File) (text : List Char) : List Char :=
  files.foldl (fun t f => if containsSub f.name t then reSubImg t else t) text

/-- Whether the pattern `\n\[.*\]\(.*\)` matches at the head of `s`. -/
def linkAt (s : List Char) : Bool :=
  match s with
  | '\n' :: '[' :: rest =>
    (List.range (lineSeg rest).length).any (fun a => validA (lineSeg rest) a)
  | _ => false

/-- `re.search` for the download-link pattern of session.py line 252, as
a match-existence test. -/
def hasDownloadLink : List Char → Bool
  | [] => false
  | c :: cs => linkAt (c :: cs) || hasDownloadLink cs

/-- A Python exception value: its class name and its message text. -/
structure PyExc where
  name : List Char
  msg : List Char
deriving DecidableEq

/-- `CodeInterpreterResponse` from the repository schema: the outward
answer text and the attached files. -/
structure CodeInterpreterResponse where
  content : List Char
  files : List File
deriving DecidableEq

/-- The generic failure message of session.py lines 285-286 (two adjacent
string literals, concatenated without a separator). -/
def genericMsg : List Char :=
  "Sorry, something went while generating your response.".toList
    ++ "Please try again or restart the session.".toList

/-- The detailed failure message of session.py line 281 (note the double
blank before the dash, as in the source). -/
def detailedMsg (ename emsg : List Char) : List Char :=
  "Error in CodeInterpreterSession: ".toList ++ ename ++ "  - ".toList ++ emsg

/-- `_output_handler` (session.py lines 245-259): strip inline image
references; then, when output files exist and a bracketed link pattern
remains, run the external link-removal pass, keeping the current text
when that pass fails.  The response always carries the session's
`output_files` list. -/
def output_handler (outputFiles : List File)
    (removeLink : List Char → Except PyExc (List Char))
    (finalResponse : List Char) : CodeInterpreterResponse :=
  ⟨(if outputFiles ≠ [] ∧
        hasDownloadLink (stripImages outputFiles finalResponse) then
      match removeLink (stripImages outputFiles finalResponse) with
      | .ok t2 => t2
      | .error _ => stripImages outputFiles finalResponse
    else stripImages outputFiles finalResponse),
    outputFiles⟩

/-- `generate_response` (session.py lines 261-287) around its body's
outcome: the body (input upload, the agent loop, a tool invocation,
the agent's final answer) either produces the final answer text or raises
an exception; a raised exception is caught and converted into a failure
response, generic or detailed.  Modelled from the spec: the error-path
`CodeInterpreterResponse` is built from the failure message alone (the
schema type lives outside session.py, and the spec's propagation policy
lets only the message escape), so its `files` field is the empty
sequence. -/
def generate_response (outputFiles : List File)
    (removeLink : List Char → Except PyExc (List Char))
    (detailed : Bool) (outcome : Except PyExc (List Char)) :
    CodeInterpreterResponse :=
  match outcome with
  | .ok response => output_handler outputFiles removeLink response
  | .error e =>
    if detailed then ⟨detailedMsg e.name e.msg, []⟩ else ⟨genericMsg, []⟩

/-- Result of `_input_handler`: the outgoing request text, the files
appended to `input_files` and the `(name, content)` uploads performed, in
order. -/
structure InputResult where
  content : List Char
  appended : List File
  uploads : List (List Char × List Nat)
deriving DecidableEq

/-- The canned acknowledgment of session.py lines 235-237. -/
def cannedPrompt : List Char :=
  "I uploaded, just text me back and confirm that you got the file(s).".toList

/-- The per-file attachment marker of session.py line 241. -/
def attachMarker (nm : List Char) : List Char :=
  "[Attachment: ".toList ++ nm ++ "]\n".toList

/-- `_input_handler` (session.py lines 231-243): with no files nothing
happens; otherwise empty text is replaced by the canned acknowledgment,
then the header, one marker per file, and the footer are appended, while
each file is appended to `input_files` and uploaded, in order. -/
def input_handler (content : List Char) (files : List File) : InputResult :=
  if files = [] then ⟨content, [], []⟩
  else
    ⟨(if content = [] then cannedPrompt else content)
        ++ "\n**The user uploaded the following files: **\n".toList
        ++ (files.map (fun f => attachMarker f.name)).flatten
        ++ "**File(s) are now available in the cwd. **\n".toList,
      files, files.map (fun f => (f.name, f.content))⟩

end CodeInterpreter

namespace CodeInterpreter

/-- Claim C10: the synchronous entry point of the exposed python tool
raises `NotImplementedError` for every input string; it never executes
code. -/
theorem C10_run_handler_always_raises (code : List Char) :
    run_handler code =
      .error (.notImplementedError "Use arun_handler for now.".toList) := rfl

/-- Claim C9: with the session's bound of 9, an agent that always requests
another tool call performs exactly 9 tool invocations, never a tenth. -/
theorem C9_iteration_bound (agent : Nat → AgentStep)
    (h : ∀ i, ∃ c, agent i = .toolCall c) :
    toolInvocations agent = 9 := by
  have key : ∀ rem i, toolInvocationsFrom agent i rem = rem := by
    intro rem
    induction rem with
    | zero => intro i; rfl
    | succ n ih =>
      intro i
      obtain ⟨c, hc⟩ := h i
      simp [toolInvocationsFrom, hc, ih]
  simpa [toolInvocations, maxIterations] using key 9 0

/-- Witness for C9 at a concrete always-tool-calling agent. -/
theorem C9_iteration_bound_witness :
    toolInvocations (fun _ => .toolCall "x = 1".toList) = 9 :=
  C9_iteration_bound _ (fun _ => ⟨"x = 1".toList, rfl⟩)

/-- Claim C2 (code behavior at the failing inputs): for every error result
whose text does not match the missing-module regex, the handler raises
`TypeError` — the `Output` constructor call of session.py line 206 passes
the misspelled keyword `conatent` — so no error event is emitted and no
text is returned to the agent. -/
theorem C2_unmatched_error_raises (env : HandlerEnv) (code : List Char)
    (out : CodeBoxOutput) (ht : out.type = "error".toList)
    (h : searchModule out.content = none) :
    arun_handler env code out = .error .outputKeywordTypeError := by
  unfold arun_handler
  rw [ht, if_neg (by decide), if_pos rfl]
  cases hc : containsSub "ModuleNotFoundError".toList out.content
  · rw [if_neg (by decide)]
  · rw [if_pos rfl, h]

/-- Witness for C2 at a concrete non-matching error text. -/
theorem C2_unmatched_error_raises_witness :
    searchModule "SyntaxError: invalid syntax".toList = none ∧
      arun_handler sampleEnv "1+".toList
          ⟨"error".toList, "SyntaxError: invalid syntax".toList⟩ =
        .error .outputKeywordTypeError :=
  ⟨by decide,
    C2_unmatched_error_raises sampleEnv "1+".toList
      ⟨"error".toList, "SyntaxError: invalid syntax".toList⟩ rfl (by decide)⟩

/-- Counterexample to claim C3 as stated: `cexModText` contains the
pattern with name `foo`, yet the handler installs the greedy capture
`foo' in 'bar`, not `foo`. -/
theorem C3_greedy_capture_counterexample :
    containsSub ("ModuleNotFoundError: No module named ".toList ++ [quoteC]
        ++ "foo".toList ++ [quoteC]) cexModText = true ∧
      arun_handler sampleEnv "import foo".toList ⟨"error".toList, cexModText⟩ =
        .ok ⟨cexCapture ++ remediationSuffix,
          [⟨.text "import foo".toList, .code⟩], [], [cexCapture]⟩ ∧
      cexCapture ≠ "foo".toList := by
  refine ⟨by decide, ?_, by decide⟩
  rfl

/-- Claim C3 as amended: on an error result matched by the missing-module
regex, the handler calls install exactly once, with the regex's greedy
capture (the text between the first occurrence of the literal and the last
apostrophe on that line), returns the remediation text naming that
capture, emits only the `code` event (no error event) and records no
output file. -/
theorem C3_install_once_with_greedy_capture (env : HandlerEnv)
    (code pkg : List Char) (out : CodeBoxOutput)
    (ht : out.type = "error".toList)
    (hc : containsSub "ModuleNotFoundError".toList out.content = true)
    (hs : searchModule out.content = some pkg) :
    arun_handler env code out =
      .ok ⟨pkg ++ remediationSuffix, [⟨.text code, .code⟩],
        env.outputFiles, [pkg]⟩ := by
  unfold arun_handler
  rw [ht, if_neg (by decide), if_pos rfl, if_pos hc, hs]

/-- Witness for C3's amended theorem at a well-formed error text, where
the greedy capture coincides with the module name. -/
theorem C3_install_once_witness :
    containsSub "ModuleNotFoundError".toList (literalM ++ "numpy".toList ++ [quoteC])
        = true ∧
      searchModule (literalM ++ "numpy".toList ++ [quoteC]) =
        some "numpy".toList ∧
      arun_handler sampleEnv "import numpy".toList
          ⟨"error".toList, literalM ++ "numpy".toList ++ [quoteC]⟩ =
        .ok ⟨"numpy".toList ++ remediationSuffix,
          [⟨.text "import numpy".toList, .code⟩], [], ["numpy".toList]⟩ :=
  ⟨by decide, by decide,
    C3_install_once_with_greedy_capture sampleEnv "import numpy".toList
      "numpy".toList ⟨"error".toList, literalM ++ "numpy".toList ++ [quoteC]⟩
      rfl (by decide) (by decide)⟩

/-- Claim C4: on an image result the handler builds the filename
`image-<uuid>.png`, wraps the base64-decoded payload as a `File`, emits
exactly one image event carrying that file, appends it to the output
files, and returns a confirmation that mentions the filename (and is
built from the filename alone, not from the payload bytes). -/
theorem C4_image_branch (env : HandlerEnv) (code : List Char)
    (out : CodeBoxOutput) (h : out.type = "image/png".toList) :
    arun_handler env code out =
      .ok ⟨"Image ".toList ++ imageFilename env.uuidStr
            ++ " got send to the user.".toList,
        [⟨.text code, .code⟩,
          ⟨.file ⟨imageFilename env.uuidStr, env.b64decode out.content⟩, .image⟩],
        env.outputFiles ++ [⟨imageFilename env.uuidStr, env.b64decode out.content⟩],
        []⟩ ∧
      imageFilename env.uuidStr <:+:
        ("Image ".toList ++ imageFilename env.uuidStr
          ++ " got send to the user.".toList) := by
  constructor
  · unfold arun_handler
    rw [h, if_pos rfl]
  · exact ⟨"Image ".toList, " got send to the user.".toList, rfl⟩

/-- Witness for C4 at a concrete image result. -/
theorem C4_image_branch_witness :
    arun_handler sampleEnv "plot()".toList ⟨"image/png".toList, "QUJD".toList⟩ =
        .ok ⟨"Image ".toList ++ imageFilename "u0".toList
              ++ " got send to the user.".toList,
          [⟨.text "plot()".toList, .code⟩,
            ⟨.file ⟨imageFilename "u0".toList, []⟩, .image⟩],
          [⟨imageFilename "u0".toList, []⟩], []⟩ ∧
      imageFilename "u0".toList <:+:
        ("Image ".toList ++ imageFilename "u0".toList
          ++ " got send to the user.".toList) :=
  C4_image_branch sampleEnv "plot()".toList ⟨"image/png".toList, "QUJD".toList⟩ rfl

/-- Files produced by the download loop never carry the name of an input
file: candidates with such names are skipped before any download. -/
theorem downloadLoop_mem_not_input (env : HandlerEnv) :
    ∀ names f, f ∈ downloadLoop env names →
      f.name ∉ env.inputFiles.map File.name := by
  intro names
  induction names with
  | nil => intro f hf; simp [downloadLoop] at hf
  | cons nm rest ih =>
    intro f hf
    simp only [downloadLoop] at hf
    by_cases hin : nm ∈ env.inputFiles.map File.name
    · rw [if_pos hin] at hf; exact ih f hf
    · rw [if_neg hin] at hf
      by_cases hdl : env.download nm = []
      · rw [if_pos hdl] at hf; exact ih f hf
      · rw [if_neg hdl] at hf
        rcases List.mem_cons.mp hf with h | h
        · rw [h]; exact hin
        · exact ih f h

/-- Claim C7: in the download phase (non-image, non-error results), every
file in the handler's resulting output list either was already there or
has a name distinct from every uploaded input file's name; input names are
never appended by the download phase. -/
theorem C7_download_skips_inputs (env : HandlerEnv) (code : List Char)
    (out : CodeBoxOutput) (r : HandlerOut)
    (h1 : out.type ≠ "image/png".toList) (h2 : out.type ≠ "error".toList)
    (hr : arun_handler env code out = .ok r) :
    ∀ f ∈ r.outputFiles,
      f ∈ env.outputFiles ∨ f.name ∉ env.inputFiles.map File.name := by
  unfold arun_handler at hr
  rw [if_neg h1, if_neg h2] at hr
  cases hmods : env.getFileModifications code with
  | nil =>
    rw [hmods] at hr
    dsimp only at hr
    injection hr with h
    intro f hf
    rw [← h] at hf
    exact Or.inl hf
  | cons nm rest =>
    rw [hmods] at hr
    dsimp only at hr
    injection hr with h
    intro f hf
    rw [← h] at hf
    rcases List.mem_append.mp hf with hl | hrr
    · exact Or.inl hl
    · exact Or.inr (downloadLoop_mem_not_input env (nm :: rest) f hrr)

/-- Witness for C7 at a concrete request whose candidate names overlap the
input files: the overlapping candidate is not re-downloaded. -/
theorem C7_download_skips_inputs_witness :
    arun_handler
        ⟨fun _ => [], "u0".toList, fun _ => ["data.csv".toList, "new.txt".toList],
          fun _ => [7], [⟨"data.csv".toList, [1]⟩], []⟩
        "open".toList ⟨"text".toList, "done".toList⟩ =
      .ok ⟨"done".toList,
        [⟨.text "open".toList, .code⟩,
          ⟨.file ⟨"new.txt".toList, [7]⟩, .file⟩],
        [⟨"new.txt".toList, [7]⟩], []⟩ ∧
      ∀ f ∈ ([⟨"new.txt".toList, [7]⟩] : List File),
        f ∈ ([] : List File) ∨
          f.name ∉ ([⟨"data.csv".toList, [1]⟩] : List File).map File.name := by
  have h1 := C7_download_skips_inputs
    ⟨fun _ => [], "u0".toList, fun _ => ["data.csv".toList, "new.txt".toList],
      fun _ => [7], [⟨"data.csv".toList, [1]⟩], []⟩
    "open".toList ⟨"text".toList, "done".toList⟩
    ⟨"done".toList,
      [⟨.text "open".toList, .code⟩, ⟨.file ⟨"new.txt".toList, [7]⟩, .file⟩],
      [⟨"new.txt".toList, [7]⟩], []⟩
    (by decide) (by decide) (by rfl)
  exact ⟨by rfl, h1⟩

/-- Claim C1: every exception raised during the body of
`generate_response` is converted into a `CodeInterpreterResponse` (the
model returns a response value, never the exception): the content is the
generic failure message when detailed mode is off, and contains the
exception's class name and message when it is on. -/
theorem C1_generate_response_absorbs (outputFiles : List File)
    (removeLink : List Char → Except PyExc (List Char)) (e : PyExc) :
    (generate_response outputFiles removeLink false (.error e)).content
        = genericMsg ∧
      e.name <:+:
        (generate_response outputFiles removeLink true (.error e)).content ∧
      e.msg <:+:
        (generate_response outputFiles removeLink true (.error e)).content := by
  refine ⟨rfl, ?_, ?_⟩
  · exact ⟨"Error in CodeInterpreterSession: ".toList,
      "  - ".toList ++ e.msg, by simp [generate_response, detailedMsg]⟩
  · exact ⟨"Error in CodeInterpreterSession: ".toList ++ e.name ++ "  - ".toList,
      [], by simp [generate_response, detailedMsg]⟩

/-- Counterexample to claim C5 as stated: with one output file `a.png`
named in the text, the code strips not only the one inline image
reference that follows the name, but also a second reference not tied to
any filename occurrence, which the claim says is left in place. -/
theorem C5_strip_counterexample :
    stripImages [⟨"a.png".toList, []⟩]
        "see a.png\n\n![u](v) and more\n\n![p](q)".toList
      = "see a.png and more".toList ∧
      containsSub "![p](q)".toList
          "see a.png\n\n![u](v) and more\n\n![p](q)".toList = true ∧
      containsSub "![p](q)".toList "see a.png and more".toList = false := by
  exact ⟨by decide, by decide, by decide⟩

/-- Claim C5 as amended: when no output file's name occurs in the answer
text the stripping stage leaves it unchanged; when a file's name does
occur, the global substitution removes every occurrence of the pattern
throughout the text — even one not immediately following the filename, as
the second conjunct shows on a text whose only reference is far from the
name. -/
theorem C5_strip_amended :
    (∀ (files : List File) (text : List Char),
        (∀ f ∈ files, containsSub f.name text = false) →
          stripImages files text = text) ∧
      stripImages [⟨"a.png".toList, []⟩]
          "a.png is attached\n\n![far](img)".toList
        = "a.png is attached".toList := by
  constructor
  · intro files
    induction files with
    | nil => intro text _; rfl
    | cons f rest ih =>
      intro text h
      have hf := h f (List.mem_cons_self f rest)
      have h2 : ∀ g ∈ rest, containsSub g.name text = false :=
        fun g hg => h g (List.mem_cons_of_mem f hg)
      calc stripImages (f :: rest) text
          = stripImages rest text := by simp [stripImages, hf]
        _ = text := ih text h2
  · decide

/-- Witness for C5's amended theorem at a name-free concrete text. -/
theorem C5_strip_amended_witness :
    stripImages [⟨"z.png".toList, []⟩] "hello\n\n![x](y)".toList
      = "hello\n\n![x](y)".toList :=
  C5_strip_amended.1 [⟨"z.png".toList, []⟩] "hello\n\n![x](y)".toList (by decide)

/-- Counterexample to claim C6: when the body raises after an output file
was produced, the returned response carries an empty `files` field, not
the accumulated output files. -/
theorem C6_error_path_counterexample :
    (generate_response [⟨"image-u0.png".toList, [1]⟩] (fun t => .ok t) false
          (.error ⟨"TypeError".toList, "bad keyword".toList⟩)).files = [] ∧
      ([] : List File) ≠ [⟨"image-u0.png".toList, [1]⟩] :=
  ⟨rfl, by decide⟩

/-- Claim C6 as amended: on the successful path the response's `files`
field is exactly the session's accumulated output files, in
first-produced order; on the exception path it is empty regardless of
what accumulated. -/
theorem C6_files_field (outputFiles : List File)
    (removeLink : List Char → Except PyExc (List Char))
    (detailed : Bool) (response : List Char) (e : PyExc) :
    (generate_response outputFiles removeLink detailed (.ok response)).files
        = outputFiles ∧
      (generate_response outputFiles removeLink detailed (.error e)).files
        = [] := by
  refine ⟨rfl, ?_⟩
  cases detailed <;> rfl

/-- A member of a list of lists is an infix of its concatenation. -/
theorem mem_infix_join (L : List (List Char)) (l : List Char) (h : l ∈ L) :
    l <:+: L.flatten := by
  induction L with
  | nil => cases h
  | cons x xs ih =>
    rcases List.mem_cons.mp h with h1 | h1
    · rw [h1]
      exact ⟨[], xs.flatten, by simp⟩
    · exact (ih h1).trans ⟨x, [], by simp⟩

/-- Claim C8: with a non-empty attached file list, empty text is replaced
by the canned acknowledgment before the file section is appended; in all
cases with attached files, each file is appended to `input_files` in
order, uploaded to the backend in order, and named by an attachment
marker appended to the outgoing text. -/
theorem C8_input_handler (content : List Char) (files : List File)
    (h : files ≠ []) :
    (content = [] →
        (input_handler content files).content =
          cannedPrompt
            ++ "\n**The user uploaded the following files: **\n".toList
            ++ (files.map (fun f => attachMarker f.name)).flatten
            ++ "**File(s) are now available in the cwd. **\n".toList) ∧
      (input_handler content files).appended = files ∧
      (input_handler content files).uploads =
        files.map (fun f => (f.name, f.content)) ∧
      ∀ f ∈ files,
        attachMarker f.name <:+: (input_handler content files).content := by
  unfold input_handler
  rw [if_neg h]
  refine ⟨fun hc => by rw [if_pos hc], rfl, rfl, ?_⟩
  intro f hf
  have h1 : attachMarker f.name <:+:
      (files.map (fun g => attachMarker g.name)).flatten :=
    mem_infix_join _ _ (List.mem_map_of_mem _ hf)
  refine h1.trans ?_
  exact ⟨(if content = [] then cannedPrompt else content)
      ++ "\n**The user uploaded the following files: **\n".toList,
    "**File(s) are now available in the cwd. **\n".toList, by simp⟩

/-- Witness for C8 at a concrete upload request. -/
theorem C8_input_handler_witness :
    (input_handler [] [⟨"data.csv".toList, [1, 2]⟩]).appended
        = [⟨"data.csv".toList, [1, 2]⟩] ∧
      (input_handler [] [⟨"data.csv".toList, [1, 2]⟩]).uploads
        = [("data.csv".toList, [1, 2])] :=
  ⟨(C8_input_handler [] [⟨"data.csv".toList, [1, 2]⟩] (by decide)).2.1,
    (C8_input_handler [] [⟨"data.csv".toList, [1, 2]⟩] (by decide)).2.2.1⟩

end CodeInterpreter
